import Mathlib

/-!
Verification development for the IBKR stage-one trading glue code.

The repository under study is a thin orchestration layer over the
`ib_insync` brokerage client:

* `src/connection/ib_connector.py` — `IBConnector`: connect / disconnect /
  is_connected wrappers around one `IB()` object;
* `src/connection/connection_manager.py` — `ConnectionManager`: lazy session
  acquisition and `get_account_summary` with mock fallbacks;
* `src/stages.py` — `initialize_stage_one`: connect, fetch account summary,
  request one market-data snapshot, cancel it, disconnect, and assemble a
  four-field result record.

The embedding below translates that Python code into Lean.  The third-party
`ib_insync` client is the only external dependency; its behaviour in one
orchestration call is modelled by a `ClientBehavior` oracle giving the outcome
of each client operation (success value or raised exception).  Python
exceptions are modelled by `PyExn` threaded through `Except`; Python dicts by
insertion-ordered association lists (`PyDict`); Python float truthiness
(`0.0` falsy, `nan` truthy) by `PyFloat.truthy`.  Calls to
`manager.disconnect()` and to `reqMktData` / `cancelMktData` are recorded in
an event trace so that "invoked exactly once" properties can be stated.
-/

/-- Python exceptions, split by what the source's `except` clauses
distinguish: `ConnectionError` (and its subclass `ConnectionRefusedError`)
versus every other `Exception`.  The payload is `str(e)`. -/
inductive PyExn where
  | connectionError (msg : String)
  | otherError (msg : String)
  deriving DecidableEq

/-- `str(e)` of an exception. -/
def PyExn.msg : PyExn → String
  | .connectionError m => m
  | .otherError m => m

/-- A Python float as far as this code observes it: the ticker price fields
are only tested for truthiness and copied.  `nan` is kept separate because in
Python `float('nan')` is truthy while `0.0` is falsy. -/
inductive PyFloat where
  | nan
  | val (q : ℚ)
  deriving DecidableEq

/-- Python truthiness of a float: `0.0` (and `-0.0`) is falsy, every other
value including `nan` is truthy. -/
def PyFloat.truthy : PyFloat → Bool
  | .nan => true
  | .val q => q != 0

/-- Rendering of a float inside an f-string (only the claims' containment
properties depend on this, not its exact shape). -/
def PyFloat.pyStr : PyFloat → String
  | .nan => "nan"
  | .val q => toString q

/-- One `ib_insync.AccountValue` row: `account`, `tag`, `value`, `currency`. -/
structure AccountValue where
  account : String
  tag : String
  value : String
  currency : String
  deriving DecidableEq

/-- The fields of an `ib_insync.Ticker` that `stages.py` reads.  `time` is a
datetime-or-None; the code only tests it for truthiness and calls
`.isoformat()`, so it is modelled as the resulting string. -/
structure Ticker where
  last : PyFloat
  bid : PyFloat
  ask : PyFloat
  close : PyFloat
  volume : PyFloat
  time : Option String
  deriving DecidableEq

/-- Abbreviated `str(ticker)` for the "No market data received" f-string
(`ib_insync`'s full repr is longer; the claims only inspect the prefix of the
message, which does not depend on this rendering). -/
def tickerPyStr : Option Ticker → String
  | none => "None"
  | some t => "Ticker(last=" ++ t.last.pyStr ++ ", close=" ++ t.close.pyStr ++ ")"

/-- Outcome of `ib.connect(host, port, client_id)` in `IBConnector.connect`:
success, `ConnectionRefusedError`, or any other exception (with its text). -/
inductive ConnectOutcome where
  | success
  | refused (msg : String)
  | failure (msg : String)
  deriving DecidableEq

/-- The behaviour of the underlying `ib_insync` client during one
orchestration call: the outcome of each operation the repository invokes.
An `Option PyExn` is `none` when the call returns normally and `some e`
when it raises `e`; an `Except` carries the returned value on success. -/
structure ClientBehavior where
  connectOutcome : ConnectOutcome
  accountValuesOutcome : Except PyExn (List AccountValue)
  reqMktDataOutcome : Option PyExn
  sleepOutcome : Option PyExn
  tickerOutcome : Except PyExn (Option Ticker)
  cancelMktDataOutcome : Option PyExn

/-- A Python `dict[str, str]` as an insertion-ordered association list. -/
abbrev PyDict := List (String × String)

/-- Python `d.get(k)`: the value at the first (unique) matching key. -/
def pget (d : PyDict) (k : String) : Option String :=
  match d with
  | [] => none
  | p :: rest => if p.1 = k then some p.2 else pget rest k

/-- Python `d[k] = v`: replace the value at an existing key in place,
otherwise append the pair at the end. -/
def pset (d : PyDict) (k v : String) : PyDict :=
  match d with
  | [] => [(k, v)]
  | p :: rest => if p.1 = k then (p.1, v) :: rest else p :: pset rest k v

/-- Keys of the dict in insertion order. -/
def pkeys (d : PyDict) : List String := d.map Prod.fst

/-- Observable events of one orchestration call that the temporal claims
count: the market-data request and cancellation on the `ib` instance, and
invocations of `ConnectionManager.disconnect`. -/
inductive Event where
  | reqMktData
  | cancelMktData
  | managerDisconnect
  deriving DecidableEq, BEq

/-! ## `src/connection/ib_connector.py` — `IBConnector` -/

/-- State of an `IBConnector` together with its owned `ib_insync.IB` object:
`sessionOpen` is `self.ib.isConnected()` and `internal_connected` is the
`self._is_connected` flag. -/
structure IBConnector where
  host : String
  port : Int
  client_id : Int
  sessionOpen : Bool
  internal_connected : Bool
  deriving DecidableEq

/-- `IBConnector.__init__`: a fresh `IB()` object is not connected. -/
def IBConnector.new (host : String) (port client_id : Int) : IBConnector :=
  { host := host, port := port, client_id := client_id,
    sessionOpen := false, internal_connected := false }

/-- `IBConnector.connect` (ib_connector.py lines 22-43): if the session is
not open, attempt `ib.connect`; a `ConnectionRefusedError` or any other
exception clears the flag and re-raises as `ConnectionError` with the
source's message; if the session is already open, just set the flag. -/
def IBConnector.connect (b : ClientBehavior) (c : IBConnector) :
    Except PyExn Unit × IBConnector :=
  if !c.sessionOpen then
    match b.connectOutcome with
    | .success => (.ok (), { c with sessionOpen := true, internal_connected := true })
    | .refused _ =>
        (.error (.connectionError
            ("Connection refused by IB Gateway/TWS on " ++ c.host ++ ":" ++ toString c.port)),
         { c with internal_connected := false })
    | .failure m =>
        (.error (.connectionError ("Failed to connect to IB: " ++ m)),
         { c with internal_connected := false })
  else
    (.ok (), { c with internal_connected := true })

/-- `IBConnector.disconnect` (lines 45-54). -/
def IBConnector.disconnect (c : IBConnector) : IBConnector :=
  if c.sessionOpen then { c with sessionOpen := false, internal_connected := false }
  else c

/-- `IBConnector.is_connected` (lines 56-69): re-syncs the internal flag with
`ib.isConnected()` and returns it.  Returned as (result, updated state). -/
def IBConnector.is_connected (c : IBConnector) : Bool × IBConnector :=
  if c.sessionOpen then (true, { c with internal_connected := true })
  else (false, { c with internal_connected := false })

/-! ## `src/connection/connection_manager.py` — `ConnectionManager` -/

/-- State of a `ConnectionManager`: its connector (`self._ib_connector`,
always created by `__init__`) and whether `self._ib_instance` is set (when
set it aliases the connector's `IB` object, so no separate state is kept). -/
structure ConnectionManager where
  host : String
  port : Int
  client_id : Int
  conn : IBConnector
  ib_instance_set : Bool
  deriving DecidableEq

/-- `ConnectionManager.__init__` (connection_manager.py lines 12-27). -/
def ConnectionManager.new (host : String) (port client_id : Int) : ConnectionManager :=
  { host := host, port := port, client_id := client_id,
    conn := IBConnector.new host port client_id, ib_instance_set := false }

/-- Lines 52-60 of `get_ib_instance`: after the (possible) connect attempt,
re-set `_ib_instance` from the connector if connected, then raise
`ConnectionError` if it is still unset. -/
def ConnectionManager.postAcquire (m : ConnectionManager) :
    Except PyExn Unit × ConnectionManager :=
  let ic := m.conn.is_connected
  let m1 :=
    if ic.1 && !m.ib_instance_set then
      { m with conn := ic.2, ib_instance_set := true }
    else
      { m with conn := ic.2 }
  if !m1.ib_instance_set then
    (.error (.connectionError "Failed to obtain IB instance from connector."), m1)
  else
    (.ok (), m1)

/-- `ConnectionManager.get_ib_instance` (lines 29-60): connect lazily via the
connector, propagating its `ConnectionError`; then the post-checks. -/
def ConnectionManager.get_ib_instance (b : ClientBehavior) (m : ConnectionManager) :
    Except PyExn Unit × ConnectionManager :=
  let ic := m.conn.is_connected
  let m0 := { m with conn := ic.2 }
  if !ic.1 then
    let ca := IBConnector.connect b m0.conn
    match ca.1 with
    | .error e => (.error e, { m0 with conn := ca.2 })
    | .ok _ => ConnectionManager.postAcquire { m0 with conn := ca.2, ib_instance_set := true }
  else
    ConnectionManager.postAcquire m0

/-- `ConnectionManager.disconnect` (lines 62-70). -/
def ConnectionManager.disconnect (m : ConnectionManager) : ConnectionManager :=
  let ic := m.conn.is_connected
  if ic.1 then
    { m with conn := ic.2.disconnect, ib_instance_set := false }
  else
    { m with conn := ic.2 }

/-- `ConnectionManager.is_connected` (lines 72-81): forwards to the
connector (always present after `__init__`). -/
def ConnectionManager.is_connected (m : ConnectionManager) : Bool × ConnectionManager :=
  let ic := m.conn.is_connected
  (ic.1, { m with conn := ic.2 })

/-- The mock account summary returned when disconnected
(connection_manager.py lines 99-106). -/
def mockDisconnectedSummary (account_code : String) : PyDict :=
  [("AccountCode", account_code),
   ("NetLiquidation", "1000000 (Mock)"),
   ("TotalCashValue", "1000000 (Mock)"),
   ("RealizedPnL", "0 (Mock)"),
   ("UnrealizedPnL", "0 (Mock)"),
   ("ConnectionStatus", "Disconnected - Mock Data")]

/-- The error-annotated mock summary returned when the live query raises
(lines 144-150). -/
def errorMockSummary (account_code emsg : String) : PyDict :=
  [("AccountCode", account_code),
   ("Error", emsg),
   ("NetLiquidation", "Error (Mock)"),
   ("TotalCashValue", "Error (Mock)"),
   ("ConnectionStatus", "Connected but error fetching - Mock Data")]

/-- The five tags the live query filters for (line 125). -/
def summaryTags : List String :=
  ["NetLiquidation", "TotalCashValue", "RealizedPnL", "UnrealizedPnL", "CashBalance"]

/-- `ConnectionManager.get_account_summary` (lines 83-150): mock data when
disconnected or the instance is unset; otherwise query `accountValues`
(whose raised exceptions are caught and turned into the error-annotated
mock), return `{Error, AccountCode}` on an empty result, else filter the
rows to the five known tags and, when no tag matched (only the two initial
keys remain), add the N/A placeholders and the note. -/
def ConnectionManager.get_account_summary (b : ClientBehavior) (m : ConnectionManager)
    (account_code : String) : PyDict × ConnectionManager :=
  let ic := m.is_connected
  let m1 := ic.2
  let summary :=
    if !ic.1 || !m1.ib_instance_set then
      mockDisconnectedSummary account_code
    else
      match b.accountValuesOutcome with
      | .error e => errorMockSummary account_code e.msg
      | .ok acc_values =>
        if acc_values.isEmpty then
          [("Error", "No account values returned"), ("AccountCode", account_code)]
        else
          let summary0 : PyDict :=
            [("AccountCode", account_code), ("ConnectionStatus", "Connected - Live Data")]
          let summary1 := acc_values.foldl
            (fun s av => if av.tag ∈ summaryTags then pset s av.tag av.value else s)
            summary0
          if summary1.length ≤ 2 then
            pset (pset (pset summary1
                "NetLiquidation" ((pget summary1 "NetLiquidation").getD "N/A (Live-Check)"))
                "TotalCashValue" ((pget summary1 "TotalCashValue").getD "N/A (Live-Check)"))
                "Note" "Some values might be missing from live feed for this account."
          else summary1
  (summary, m1)

/-! ## `src/stages.py` — `initialize_stage_one` -/

/-- The `'market_data'` mapping built on the success branch
(stages.py lines 95-103). -/
structure MarketDataMap where
  symbol : String
  last_price : PyFloat
  bid_price : PyFloat
  ask_price : PyFloat
  close_price : PyFloat
  volume : PyFloat
  timestamp : Option String
  deriving DecidableEq

/-- The `'market_data'` field is a union: the snapshot mapping on success or
a human-readable error string. -/
inductive MarketData where
  | dataMap (d : MarketDataMap)
  | errString (s : String)
  deriving DecidableEq

/-- The result record assembled by `initialize_stage_one`
(stages.py lines 37-42). -/
structure StageOneResult where
  connection_status : Bool
  account_summary : PyDict
  market_data : Option MarketData
  error : Option String
  deriving DecidableEq

/-- The body of the inner `try` of the market-data step
(stages.py lines 82-107): `reqMktData`, `ib.sleep(2)`, `ib.ticker(contract)`,
then either the snapshot mapping (when `ticker and (ticker.last or
ticker.close)` is truthy) or the "No market data received" string. -/
def marketDataTry (b : ClientBehavior) (symbol : String) : Except PyExn MarketData :=
  match b.reqMktDataOutcome with
  | some e => .error e
  | none =>
    match b.sleepOutcome with
    | some e => .error e
    | none =>
      match b.tickerOutcome with
      | .error e => .error e
      | .ok tk =>
        match tk with
        | some t =>
          if t.last.truthy || t.close.truthy then
            .ok (.dataMap { symbol := symbol, last_price := t.last, bid_price := t.bid,
                            ask_price := t.ask, close_price := t.close, volume := t.volume,
                            timestamp := t.time })
          else
            .ok (.errString
              ("No market data received for " ++ symbol ++ ". Ticker: " ++ tickerPyStr (some t)))
        | none =>
          .ok (.errString
            ("No market data received for " ++ symbol ++ ". Ticker: " ++ tickerPyStr none))

/-- The whole market-data step (stages.py lines 81-115): the inner `try`,
its `except Exception` rendering any exception as an error string in
`market_data`, and its `finally` calling `cancelMktData` when
`ib_instance.isConnected()`.  Returns the exception escaping the step (only
possible from `cancelMktData`), the `market_data` value, and the emitted
events (`reqMktData` was called first in the `try`, so its event is always
recorded). -/
def marketDataStep (b : ClientBehavior) (sessionOpen : Bool) (symbol : String) :
    Except PyExn Unit × MarketData × List Event :=
  let md : MarketData :=
    match marketDataTry b symbol with
    | .ok v => v
    | .error e => .errString ("Error fetching market data for " ++ symbol ++ ": " ++ e.msg)
  if sessionOpen then
    match b.cancelMktDataOutcome with
    | some e => (.error e, md, [Event.reqMktData, Event.cancelMktData])
    | none => (.ok (), md, [Event.reqMktData, Event.cancelMktData])
  else
    (.ok (), md, [Event.reqMktData])

/-- The outer `try` body of `initialize_stage_one` (stages.py lines 44-115):
acquire the session, record the connection status (with the early return
when it is false), fetch the account summary, and run the market-data step.
Returns the exception escaping the body, the `results` record as assigned so
far, the manager state, and the emitted events. -/
def stageTryBody (b : ClientBehavior) (host : String) (port client_id : Int)
    (account_code symbol : String) :
    Except PyExn Unit × StageOneResult × ConnectionManager × List Event :=
  let m0 := ConnectionManager.new host port client_id
  let r0 : StageOneResult :=
    { connection_status := false, account_summary := [], market_data := none, error := none }
  let ga := ConnectionManager.get_ib_instance b m0
  match ga.1 with
  | .error e => (.error e, r0, ga.2, [])
  | .ok _ =>
    let ic := ga.2.is_connected
    let r1 := { r0 with connection_status := ic.1 }
    let m1 := ic.2
    if !ic.1 then
      let gs := ConnectionManager.get_account_summary b m1 account_code
      (.ok (),
       { r1 with error := some "Failed to connect to Interactive Brokers.",
                 account_summary := gs.1 },
       gs.2, [])
    else
      let gs := ConnectionManager.get_account_summary b m1 account_code
      let r2 := { r1 with account_summary := gs.1 }
      let m2 := gs.2
      let ms := marketDataStep b m2.conn.sessionOpen symbol
      (ms.1, { r2 with market_data := some ms.2.1 }, m2, ms.2.2)

/-- The outer `except` handlers of `initialize_stage_one`
(stages.py lines 118-131): a `ConnectionError` sets the error text, refetches
the (mock) account summary and forces `connection_status := false`; any
other exception sets its error text, refetches the summary and re-reads
`manager.is_connected()`. -/
def stageExceptHandler (b : ClientBehavior) (e : PyExn) (r : StageOneResult)
    (m : ConnectionManager) (account_code : String) : StageOneResult × ConnectionManager :=
  match e with
  | .connectionError msg =>
    let gs := ConnectionManager.get_account_summary b m account_code
    ({ r with error := some ("Stage One Connection Error: " ++ msg),
              account_summary := gs.1, connection_status := false }, gs.2)
  | .otherError msg =>
    let gs := ConnectionManager.get_account_summary b m account_code
    let ic := gs.2.is_connected
    ({ r with error := some ("An unexpected error occurred in Stage One: " ++ msg),
              account_summary := gs.1, connection_status := ic.1 }, ic.2)

/-- The `finally` block of `initialize_stage_one` (stages.py lines 134-142):
invoke `manager.disconnect()` when `manager.is_connected()` (the invocation
of `ConnectionManager.disconnect` is recorded as a `managerDisconnect`
event), then `return results` — a `return` inside a Python `finally`, which
delivers the record unchanged and swallows any in-flight exception.  The
block never assigns to `results`, so it is modelled as producing the final
event list. -/
def stageFinally (m : ConnectionManager) (evs : List Event) : List Event :=
  let ic := m.is_connected
  if ic.1 then evs ++ [Event.managerDisconnect] else evs

/-- `initialize_stage_one` (stages.py lines 5-142): the `try` body, the two
`except` handlers, and the `finally` with its `return results`.  The
`Except` result type records whether an exception escapes the call; per the
structure of the source every path delivers `.ok` (the subject of claim C1).
`exchange` and `currency` only enter the `Stock` contract descriptor, which
has no further observable effect in the model. -/
def initialize_stage_one (b : ClientBehavior) (host : String) (port client_id : Int)
    (account_code symbol : String) (_exchange _currency : String) :
    Except PyExn (StageOneResult × List Event) :=
  let tb := stageTryBody b host port client_id account_code symbol
  match tb.1 with
  | .ok _ => .ok (tb.2.1, stageFinally tb.2.2.1 tb.2.2.2)
  | .error e =>
    let h := stageExceptHandler b e tb.2.1 tb.2.2.1 account_code
    .ok (h.1, stageFinally h.2 tb.2.2.2)

/-! ## Concrete inputs used by witnesses and counterexamples -/

/-- A client behaviour whose connect attempt is refused (everything else
benign). -/
def cbRefused : ClientBehavior :=
  { connectOutcome := .refused "refused",
    accountValuesOutcome := .ok [],
    reqMktDataOutcome := none, sleepOutcome := none,
    tickerOutcome := .ok none, cancelMktDataOutcome := none }

/-- A benign client behaviour: connect succeeds, the account-values query
returns the empty list, no ticker, every call returns normally. -/
def cbOk : ClientBehavior :=
  { connectOutcome := .success,
    accountValuesOutcome := .ok [],
    reqMktDataOutcome := none, sleepOutcome := none,
    tickerOutcome := .ok none, cancelMktDataOutcome := none }

/-- A connector whose underlying session is already open. -/
def openConnector : IBConnector :=
  { host := "127.0.0.1", port := 7497, client_id := 1,
    sessionOpen := true, internal_connected := false }

/-- A manager holding an open session with the `_ib_instance` handle set
(the state reached after a successful `get_ib_instance`). -/
def connectedManager : ConnectionManager :=
  { host := "127.0.0.1", port := 7497, client_id := 1,
    conn := { host := "127.0.0.1", port := 7497, client_id := 1,
              sessionOpen := true, internal_connected := true },
    ib_instance_set := true }

/-- A ticker whose `last` and `close` are both exactly `0.0` (falsy in
Python) while `bid` and `ask` carry data. -/
def zeroPriceTicker : Ticker :=
  { last := .val 0, bid := .val 10, ask := .val 11, close := .val 0,
    volume := .val 100, time := some "2023-01-01T12:00:00" }

/-- A client behaviour that reaches the snapshot and finds the
all-zero-price ticker. -/
def cbZeroTicker : ClientBehavior :=
  { connectOutcome := .success,
    accountValuesOutcome := .ok [],
    reqMktDataOutcome := none, sleepOutcome := none,
    tickerOutcome := .ok (some zeroPriceTicker), cancelMktDataOutcome := none }

/-- An account value whose tag is not one of the five filtered tags. -/
def nonTagValue : AccountValue :=
  { account := "DU1234567", tag := "Currency", value := "USD", currency := "USD" }

/-- A client behaviour whose live account-values query returns one row with
an unfiltered tag. -/
def cbLive : ClientBehavior :=
  { connectOutcome := .success,
    accountValuesOutcome := .ok [nonTagValue],
    reqMktDataOutcome := none, sleepOutcome := none,
    tickerOutcome := .ok none, cancelMktDataOutcome := none }

/-- A client behaviour that reaches a no-price snapshot and whose
`cancelMktData` call raises a `ConnectionError` (e.g. the socket dropped
while cancelling). -/
def cbCancelConnErr : ClientBehavior :=
  { connectOutcome := .success,
    accountValuesOutcome := .ok [],
    reqMktDataOutcome := none, sleepOutcome := none,
    tickerOutcome := .ok (some zeroPriceTicker),
    cancelMktDataOutcome := some (.connectionError "socket dropped") }

/-! ## Helper lemmas -/

theorem pget_pset_of_ne (d : PyDict) (k k0 v : String) (h : k ≠ k0) :
    pget (pset d k v) k0 = pget d k0 := by
  induction d with
  | nil => simp [pset, pget, h]
  | cons hd tl ih =>
    simp only [pset]
    by_cases hk : hd.1 = k
    · rw [if_pos hk]
      simp only [pget]
      rw [if_neg (hk ▸ h ∘ Eq.symm ∘ Eq.symm)]
      rw [if_neg (hk ▸ h ∘ Eq.symm ∘ Eq.symm)]
    · rw [if_neg hk]
      simp only [pget]
      by_cases hk0 : hd.1 = k0
      · rw [if_pos hk0, if_pos hk0]
      · rw [if_neg hk0, if_neg hk0]
        exact ih

theorem pkeys_pset (d : PyDict) (k v : String) :
    ∀ x ∈ pkeys (pset d k v), x ∈ pkeys d ∨ x = k := by
  induction d with
  | nil =>
    intro x hx
    simp [pset, pkeys] at hx
    exact Or.inr hx
  | cons hd tl ih =>
    intro x hx
    simp only [pset] at hx
    by_cases hk : hd.1 = k
    · rw [if_pos hk] at hx
      simp only [pkeys, List.map_cons, List.mem_cons] at hx ⊢
      rcases hx with rfl | hx
      · exact Or.inl (Or.inl rfl)
      · exact Or.inl (Or.inr hx)
    · rw [if_neg hk] at hx
      simp only [pkeys, List.map_cons, List.mem_cons] at hx ⊢
      rcases hx with rfl | hx
      · exact Or.inl (Or.inl rfl)
      · rcases ih x hx with h' | h'
        · exact Or.inl (Or.inr h')
        · exact Or.inr h'

theorem mem_summaryTags_ne_accountCode : ∀ t ∈ summaryTags, t ≠ "AccountCode" := by decide

theorem pget_fold_accountCode (vs : List AccountValue) (d : PyDict) (code : String)
    (h : pget d "AccountCode" = some code) :
    pget (vs.foldl (fun s av => if av.tag ∈ summaryTags then pset s av.tag av.value else s) d)
      "AccountCode" = some code := by
  induction vs generalizing d with
  | nil => simpa using h
  | cons av vs ih =>
    simp only [List.foldl_cons]
    apply ih
    by_cases htag : av.tag ∈ summaryTags
    · rw [if_pos htag, pget_pset_of_ne _ _ _ _ (mem_summaryTags_ne_accountCode _ htag)]
      exact h
    · rw [if_neg htag]
      exact h

theorem pkeys_fold_subset (vs : List AccountValue) (d : PyDict) :
    ∀ x ∈ pkeys (vs.foldl (fun s av => if av.tag ∈ summaryTags then pset s av.tag av.value else s) d),
      x ∈ pkeys d ∨ x ∈ summaryTags := by
  induction vs generalizing d with
  | nil =>
    intro x hx
    exact Or.inl (by simpa using hx)
  | cons av vs ih =>
    intro x hx
    simp only [List.foldl_cons] at hx
    rcases ih _ x hx with h' | h'
    · by_cases htag : av.tag ∈ summaryTags
      · rw [if_pos htag] at h'
        rcases pkeys_pset d av.tag av.value x h' with h2 | h2
        · exact Or.inl h2
        · exact Or.inr (h2 ▸ htag)
      · rw [if_neg htag] at h'
        exact Or.inl h'
    · exact Or.inr h'

theorem fold_no_tag_match (vs : List AccountValue) (d : PyDict)
    (h : ∀ av ∈ vs, av.tag ∉ summaryTags) :
    vs.foldl (fun s av => if av.tag ∈ summaryTags then pset s av.tag av.value else s) d = d := by
  induction vs generalizing d with
  | nil => rfl
  | cons av vs ih =>
    simp only [List.foldl_cons]
    rw [if_neg (h av (by simp))]
    exact ih d (fun a ha => h a (by simp [ha]))

/-! ## Claim theorems -/

/-- C10: for every account code and every connection state (disconnected,
connected with values, connected with an empty result, or connected with the
underlying call raising), `get_account_summary` never raises — its
translation is a total function, every Python path returning a dict with the
`accountValues` exception caught — and the returned mapping's `AccountCode`
key equals the `account_code` argument. -/
theorem get_account_summary_accountcode (b : ClientBehavior) (m : ConnectionManager)
    (account_code : String) :
    pget (ConnectionManager.get_account_summary b m account_code).1 "AccountCode"
      = some account_code := by
  unfold ConnectionManager.get_account_summary
  cases hcond : !(m.is_connected).1 || !(m.is_connected).2.ib_instance_set with
  | true =>
    simp only [hcond, if_true]
    simp [mockDisconnectedSummary, pget]
  | false =>
    simp only [hcond, Bool.false_eq_true, if_false]
    cases hav : b.accountValuesOutcome with
    | error e => simp [errorMockSummary, pget]
    | ok acc_values =>
      cases acc_values with
      | nil => simp [pget]
      | cons av vs =>
        simp only [List.isEmpty_cons, Bool.false_eq_true, if_false]
        have hfold := pget_fold_accountCode (av :: vs)
          [("AccountCode", account_code), ("ConnectionStatus", "Connected - Live Data")]
          account_code (by simp [pget])
        split
        · rw [pget_pset_of_ne _ _ _ _ (by decide),
              pget_pset_of_ne _ _ _ _ (by decide),
              pget_pset_of_ne _ _ _ _ (by decide)]
          exact hfold
        · exact hfold

/-- C6 (counterexample to the claim as stated): with the session open, the
instance handle set, and the live `accountValues` query returning the empty
collection, the returned mapping does NOT contain the mock financial figures
— `NetLiquidation` and `TotalCashValue` are absent; the result is just the
`Error` / `AccountCode` pair. -/
theorem get_account_summary_empty_not_mock_cex :
    pget (ConnectionManager.get_account_summary cbOk connectedManager "DU1234567").1
        "NetLiquidation" = none
    ∧ pget (ConnectionManager.get_account_summary cbOk connectedManager "DU1234567").1
        "TotalCashValue" = none
    ∧ (ConnectionManager.get_account_summary cbOk connectedManager "DU1234567").1
        = [("Error", "No account values returned"), ("AccountCode", "DU1234567")] := by
  refine ⟨rfl, rfl, rfl⟩

/-- C6 (amended): when connected with the instance handle set and the live
query returns an empty collection, `get_account_summary` returns the
two-entry mapping `{Error: "No account values returned", AccountCode:
account_code}` — without the hardcoded mock financial figures, unlike the
disconnected and raising cases. -/
theorem get_account_summary_empty_result (b : ClientBehavior) (m : ConnectionManager)
    (account_code : String)
    (hconn : m.conn.sessionOpen = true)
    (hinst : m.ib_instance_set = true)
    (hav : b.accountValuesOutcome = .ok []) :
    (ConnectionManager.get_account_summary b m account_code).1
      = [("Error", "No account values returned"), ("AccountCode", account_code)] := by
  simp [ConnectionManager.get_account_summary, ConnectionManager.is_connected,
        IBConnector.is_connected, hconn, hinst, hav]

/-- Witness for the amended C6 theorem at a concrete connected manager. -/
theorem get_account_summary_empty_result_witness :
    (ConnectionManager.get_account_summary cbOk connectedManager "DU1234567").1
      = [("Error", "No account values returned"), ("AccountCode", "DU1234567")] :=
  get_account_summary_empty_result cbOk connectedManager "DU1234567" rfl rfl rfl

/-- C8: calling `connect` twice in a row on a connector whose underlying
session is already open raises no exception either time (both calls return
normally through the already-connected branch, setting the internal flag)
and leaves `is_connected()` true. -/
theorem connect_twice_idempotent (b : ClientBehavior) (c : IBConnector)
    (h : c.sessionOpen = true) :
    (IBConnector.connect b c).1 = .ok ()
    ∧ (IBConnector.connect b (IBConnector.connect b c).2).1 = .ok ()
    ∧ ((IBConnector.connect b (IBConnector.connect b c).2).2.is_connected).1 = true := by
  simp [IBConnector.connect, IBConnector.is_connected, h]

/-- Witness for C8 at a concrete open connector. -/
theorem connect_twice_idempotent_witness :
    (IBConnector.connect cbOk openConnector).1 = .ok ()
    ∧ (IBConnector.connect cbOk (IBConnector.connect cbOk openConnector).2).1 = .ok ()
    ∧ ((IBConnector.connect cbOk (IBConnector.connect cbOk openConnector).2).2.is_connected).1
        = true :=
  connect_twice_idempotent cbOk openConnector rfl

/-- Reduction of `get_account_summary` on the live branch with a non-empty
collection of account values. -/
theorem get_account_summary_live (b : ClientBehavior) (m : ConnectionManager)
    (account_code : String) (vs : List AccountValue)
    (hconn : m.conn.sessionOpen = true)
    (hinst : m.ib_instance_set = true)
    (hav : b.accountValuesOutcome = .ok vs)
    (hne : vs ≠ []) :
    (ConnectionManager.get_account_summary b m account_code).1 =
      (let summary1 := vs.foldl
          (fun s av => if av.tag ∈ summaryTags then pset s av.tag av.value else s)
          [("AccountCode", account_code), ("ConnectionStatus", "Connected - Live Data")]
       if summary1.length ≤ 2 then
         pset (pset (pset summary1
             "NetLiquidation" ((pget summary1 "NetLiquidation").getD "N/A (Live-Check)"))
             "TotalCashValue" ((pget summary1 "TotalCashValue").getD "N/A (Live-Check)"))
             "Note" "Some values might be missing from live feed for this account."
       else summary1) := by
  cases vs with
  | nil => exact absurd rfl hne
  | cons av rest =>
    simp [ConnectionManager.get_account_summary, ConnectionManager.is_connected,
          IBConnector.is_connected, hconn, hinst, hav]

/-- C7: on the live branch with a non-empty collection, every key of the
returned mapping other than `AccountCode`, `ConnectionStatus` and the
fallback keys (`NetLiquidation`, `TotalCashValue`, `Note` — the first two
doubling as tags) is one of the five known tags; and when none of the five
tags occurs among the returned values, the result is exactly the
mock-augmented mapping with the two `N/A (Live-Check)` placeholders and the
note. -/
theorem get_account_summary_filters_tags (b : ClientBehavior) (m : ConnectionManager)
    (account_code : String) (vs : List AccountValue)
    (hconn : m.conn.sessionOpen = true)
    (hinst : m.ib_instance_set = true)
    (hav : b.accountValuesOutcome = .ok vs)
    (hne : vs ≠ []) :
    (∀ k ∈ pkeys (ConnectionManager.get_account_summary b m account_code).1,
        k = "AccountCode" ∨ k = "ConnectionStatus" ∨ k = "Note" ∨ k ∈ summaryTags)
    ∧ ((∀ av ∈ vs, av.tag ∉ summaryTags) →
        (ConnectionManager.get_account_summary b m account_code).1
          = [("AccountCode", account_code),
             ("ConnectionStatus", "Connected - Live Data"),
             ("NetLiquidation", "N/A (Live-Check)"),
             ("TotalCashValue", "N/A (Live-Check)"),
             ("Note", "Some values might be missing from live feed for this account.")]) := by
  rw [get_account_summary_live b m account_code vs hconn hinst hav hne]
  constructor
  · intro k hk
    dsimp only at hk
    split at hk
    · rcases pkeys_pset _ "Note" _ k hk with h1 | h1
      · rcases pkeys_pset _ "TotalCashValue" _ k h1 with h2 | h2
        · rcases pkeys_pset _ "NetLiquidation" _ k h2 with h3 | h3
          · rcases pkeys_fold_subset vs _ k h3 with h4 | h4
            · simp [pkeys] at h4
              rcases h4 with rfl | rfl
              · exact Or.inl rfl
              · exact Or.inr (Or.inl rfl)
            · exact Or.inr (Or.inr (Or.inr h4))
          · exact Or.inr (Or.inr (Or.inr (by rw [h3]; decide)))
        · exact Or.inr (Or.inr (Or.inr (by rw [h2]; decide)))
      · exact Or.inr (Or.inr (Or.inl h1))
    · rcases pkeys_fold_subset vs _ k hk with h4 | h4
      · simp [pkeys] at h4
        rcases h4 with rfl | rfl
        · exact Or.inl rfl
        · exact Or.inr (Or.inl rfl)
      · exact Or.inr (Or.inr (Or.inr h4))
  · intro hnm
    dsimp only
    rw [fold_no_tag_match vs _ hnm]
    simp [pset, pget]

/-- Witness for C7: one returned row with tag "Currency" (not a filtered
tag), at a concrete connected manager. -/
theorem get_account_summary_filters_tags_witness :
    (∀ k ∈ pkeys (ConnectionManager.get_account_summary cbLive connectedManager "DU1234567").1,
        k = "AccountCode" ∨ k = "ConnectionStatus" ∨ k = "Note" ∨ k ∈ summaryTags)
    ∧ ((∀ av ∈ [nonTagValue], av.tag ∉ summaryTags) →
        (ConnectionManager.get_account_summary cbLive connectedManager "DU1234567").1
          = [("AccountCode", "DU1234567"),
             ("ConnectionStatus", "Connected - Live Data"),
             ("NetLiquidation", "N/A (Live-Check)"),
             ("TotalCashValue", "N/A (Live-Check)"),
             ("Note", "Some values might be missing from live feed for this account.")]) :=
  get_account_summary_filters_tags cbLive connectedManager "DU1234567" [nonTagValue]
    rfl rfl rfl (by simp)

/-- C1: for every input and every behaviour of the underlying client (any
exception raised by session acquisition, the account-summary fetch, or the
market-data calls), `initialize_stage_one` returns a result record and never
raises past its boundary; a `ConnectionError` escaping the `try` body is
recorded in the result's `error` field with the "Stage One Connection Error"
prefix, and any other exception is recorded there with the "unexpected
error" prefix. -/
theorem stage_one_total_and_records_errors (b : ClientBehavior) (host : String)
    (port client_id : Int) (account_code symbol exchange currency : String) :
    ∃ r evs, initialize_stage_one b host port client_id account_code symbol exchange currency
        = .ok (r, evs)
      ∧ (∀ msg, (stageTryBody b host port client_id account_code symbol).1
            = .error (.connectionError msg) →
          r.error = some ("Stage One Connection Error: " ++ msg))
      ∧ (∀ msg, (stageTryBody b host port client_id account_code symbol).1
            = .error (.otherError msg) →
          r.error = some ("An unexpected error occurred in Stage One: " ++ msg)) := by
  rcases htb : stageTryBody b host port client_id account_code symbol with ⟨exc, r0, m0, evs0⟩
  cases exc with
  | ok u =>
    refine ⟨r0, stageFinally m0 evs0, ?_, ?_, ?_⟩
    · simp [initialize_stage_one, htb]
    · intro msg hmsg
      simp at hmsg
    · intro msg hmsg
      simp at hmsg
  | error e =>
    cases e with
    | connectionError msg0 =>
      refine ⟨(stageExceptHandler b (.connectionError msg0) r0 m0 account_code).1,
              stageFinally (stageExceptHandler b (.connectionError msg0) r0 m0 account_code).2
                evs0, ?_, ?_, ?_⟩
      · simp [initialize_stage_one, htb]
      · intro msg hmsg
        simp at hmsg
        subst hmsg
        simp [stageExceptHandler]
      · intro msg hmsg
        simp at hmsg
    | otherError msg0 =>
      refine ⟨(stageExceptHandler b (.otherError msg0) r0 m0 account_code).1,
              stageFinally (stageExceptHandler b (.otherError msg0) r0 m0 account_code).2
                evs0, ?_, ?_, ?_⟩
      · simp [initialize_stage_one, htb]
      · intro msg hmsg
        simp at hmsg
      · intro msg hmsg
        simp at hmsg
        subst hmsg
        simp [stageExceptHandler]

/-- Witness for C1 at the refused-connect behaviour. -/
theorem stage_one_total_witness :
    ∃ r evs, initialize_stage_one cbRefused "127.0.0.1" 7497 1 "DU1234567" "AAPL" "SMART" "USD"
      = .ok (r, evs) := by
  obtain ⟨r, evs, h, -, -⟩ := stage_one_total_and_records_errors cbRefused "127.0.0.1" 7497 1
    "DU1234567" "AAPL" "SMART" "USD"
  exact ⟨r, evs, h⟩

/-- C2: whenever session acquisition raises a `ConnectionError` (text
`emsg`), the record returned by `initialize_stage_one` has
`connection_status` false, `error` containing the underlying failure text,
`market_data` absent, and the mock `account_summary` (which contains the
requested account code as its `AccountCode` entry). -/
theorem stage_one_connection_error_result (b : ClientBehavior) (host : String)
    (port client_id : Int) (account_code symbol exchange currency emsg : String)
    (h : (ConnectionManager.get_ib_instance b (ConnectionManager.new host port client_id)).1
        = .error (.connectionError emsg)) :
    ∃ evs, initialize_stage_one b host port client_id account_code symbol exchange currency
        = .ok ({ connection_status := false,
                 account_summary := mockDisconnectedSummary account_code,
                 market_data := none,
                 error := some ("Stage One Connection Error: " ++ emsg) }, evs)
      ∧ pget (mockDisconnectedSummary account_code) "AccountCode" = some account_code := by
  cases hc : b.connectOutcome with
  | success =>
    exfalso
    simp [ConnectionManager.get_ib_instance, ConnectionManager.new, IBConnector.new,
          ConnectionManager.postAcquire, IBConnector.connect, IBConnector.is_connected, hc] at h
  | refused m0 =>
    simp only [ConnectionManager.get_ib_instance, ConnectionManager.new, IBConnector.new,
          ConnectionManager.postAcquire, IBConnector.connect, IBConnector.is_connected, hc] at h
    simp at h
    refine ⟨[], ?_, by simp [mockDisconnectedSummary, pget]⟩
    simp [initialize_stage_one, stageTryBody, ConnectionManager.get_ib_instance,
          ConnectionManager.new, IBConnector.new, ConnectionManager.postAcquire,
          IBConnector.connect, IBConnector.is_connected, ConnectionManager.is_connected,
          ConnectionManager.get_account_summary, stageExceptHandler, stageFinally, hc, ← h]
  | failure m0 =>
    simp only [ConnectionManager.get_ib_instance, ConnectionManager.new, IBConnector.new,
          ConnectionManager.postAcquire, IBConnector.connect, IBConnector.is_connected, hc] at h
    simp at h
    refine ⟨[], ?_, by simp [mockDisconnectedSummary, pget]⟩
    simp [initialize_stage_one, stageTryBody, ConnectionManager.get_ib_instance,
          ConnectionManager.new, IBConnector.new, ConnectionManager.postAcquire,
          IBConnector.connect, IBConnector.is_connected, ConnectionManager.is_connected,
          ConnectionManager.get_account_summary, stageExceptHandler, stageFinally, hc, ← h]

/-- Witness for C2 at the refused-connect behaviour. -/
theorem stage_one_connection_error_result_witness :
    ∃ evs, initialize_stage_one cbRefused "127.0.0.1" 7497 1 "DU1234567" "AAPL" "SMART" "USD"
        = .ok ({ connection_status := false,
                 account_summary := mockDisconnectedSummary "DU1234567",
                 market_data := none,
                 error := some ("Stage One Connection Error: " ++
                   "Connection refused by IB Gateway/TWS on 127.0.0.1:7497") }, evs)
      ∧ pget (mockDisconnectedSummary "DU1234567") "AccountCode" = some "DU1234567" :=
  stage_one_connection_error_result cbRefused "127.0.0.1" 7497 1 "DU1234567" "AAPL" "SMART" "USD"
    "Connection refused by IB Gateway/TWS on 127.0.0.1:7497" rfl

/-- C3 (evaluation at the failing input): on a run whose connect attempt is
refused, `initialize_stage_one` completes — but `ConnectionManager.disconnect`
is invoked zero times, not once: the `finally` guard `manager.is_connected()`
is false on that path, so the `manager.disconnect()` call is skipped.  This
contradicts the claim (and the repository's own test
`test_initialize_stage_one_connection_failure`, which asserts
`disconnect.assert_called_once()` with `is_connected` mocked to `False`). -/
theorem stage_one_connect_failure_no_disconnect :
    (initialize_stage_one cbRefused "127.0.0.1" 7497 1 "DU1234567" "AAPL" "SMART" "USD").map
        (fun p => p.2.count Event.managerDisconnect) = .ok 0
    ∧ (initialize_stage_one cbOk "127.0.0.1" 7497 1 "DU1234567" "AAPL" "SMART" "USD").map
        (fun p => p.2.count Event.managerDisconnect) = .ok 1 :=
  ⟨rfl, rfl⟩

/-- C4: in every run in which the market-data request was issued (a
`reqMktData` event occurs), the market-data cancellation is invoked exactly
once — on every exit path of the market-data step (data received, no data,
or an exception during the fetch or the cancellation itself) — and the
request itself was issued exactly once. -/
theorem stage_one_cancel_once_when_requested (b : ClientBehavior) (host : String)
    (port client_id : Int) (account_code symbol exchange currency : String)
    (r : StageOneResult) (evs : List Event)
    (hrun : initialize_stage_one b host port client_id account_code symbol exchange currency
        = .ok (r, evs))
    (hreq : Event.reqMktData ∈ evs) :
    evs.count Event.cancelMktData = 1 ∧ evs.count Event.reqMktData = 1 := by
  cases hc : b.connectOutcome with
  | success =>
    cases hcan : b.cancelMktDataOutcome with
    | none =>
      simp [initialize_stage_one, stageTryBody, ConnectionManager.get_ib_instance,
            ConnectionManager.new, IBConnector.new, ConnectionManager.postAcquire,
            IBConnector.connect, IBConnector.is_connected, ConnectionManager.is_connected,
            ConnectionManager.get_account_summary, marketDataStep, stageFinally,
            hc, hcan] at hrun
      rcases hrun with ⟨-, hevs⟩
      subst hevs
      decide
    | some e =>
      cases e with
      | connectionError m0 =>
        simp [initialize_stage_one, stageTryBody, ConnectionManager.get_ib_instance,
              ConnectionManager.new, IBConnector.new, ConnectionManager.postAcquire,
              IBConnector.connect, IBConnector.is_connected, ConnectionManager.is_connected,
              ConnectionManager.get_account_summary, marketDataStep, stageFinally,
              stageExceptHandler, hc, hcan] at hrun
        rcases hrun with ⟨-, hevs⟩
        subst hevs
        decide
      | otherError m0 =>
        simp [initialize_stage_one, stageTryBody, ConnectionManager.get_ib_instance,
              ConnectionManager.new, IBConnector.new, ConnectionManager.postAcquire,
              IBConnector.connect, IBConnector.is_connected, ConnectionManager.is_connected,
              ConnectionManager.get_account_summary, marketDataStep, stageFinally,
              stageExceptHandler, hc, hcan] at hrun
        rcases hrun with ⟨-, hevs⟩
        subst hevs
        decide
  | refused m0 =>
    simp [initialize_stage_one, stageTryBody, ConnectionManager.get_ib_instance,
          ConnectionManager.new, IBConnector.new, ConnectionManager.postAcquire,
          IBConnector.connect, IBConnector.is_connected, ConnectionManager.is_connected,
          ConnectionManager.get_account_summary, stageFinally, stageExceptHandler,
          hc] at hrun
    rcases hrun with ⟨-, hevs⟩
    subst hevs
    simp at hreq
  | failure m0 =>
    simp [initialize_stage_one, stageTryBody, ConnectionManager.get_ib_instance,
          ConnectionManager.new, IBConnector.new, ConnectionManager.postAcquire,
          IBConnector.connect, IBConnector.is_connected, ConnectionManager.is_connected,
          ConnectionManager.get_account_summary, stageFinally, stageExceptHandler,
          hc] at hrun
    rcases hrun with ⟨-, hevs⟩
    subst hevs
    simp at hreq

/-- Witness for C4 at the benign behaviour. -/
theorem stage_one_cancel_once_witness :
    ([Event.reqMktData, Event.cancelMktData, Event.managerDisconnect].count Event.cancelMktData
        = 1)
    ∧ ([Event.reqMktData, Event.cancelMktData, Event.managerDisconnect].count Event.reqMktData
        = 1) :=
  stage_one_cancel_once_when_requested cbOk "127.0.0.1" 7497 1 "DU1234567" "AAPL" "SMART" "USD"
    { connection_status := true,
      account_summary := [("Error", "No account values returned"), ("AccountCode", "DU1234567")],
      market_data := some (.errString "No market data received for AAPL. Ticker: None"),
      error := none }
    [Event.reqMktData, Event.cancelMktData, Event.managerDisconnect]
    rfl (by simp)

/-- C5 (counterexample to the claim as stated): a run in which the
connection succeeds and the snapshot has neither a last nor a close price,
but whose `cancelMktData` call raises a `ConnectionError`: the outer
`except ConnectionError` handler forces `connection_status` to false, so the
field does not hold the value (true) it had before the market-data step,
although `market_data` is the "No market data received" string. -/
theorem stage_one_no_data_connstatus_cex :
    ∃ r evs, initialize_stage_one cbCancelConnErr "127.0.0.1" 7497 1 "DU1234567" "AAPL"
        "SMART" "USD" = .ok (r, evs)
      ∧ r.market_data = some (.errString "No market data received for AAPL. Ticker: Ticker(last=0, close=0)")
      ∧ r.connection_status = false := by
  refine ⟨_, _, rfl, rfl, rfl⟩

/-- C5 (amended): in every run in which the connection succeeds and the
snapshot ticker has neither a last nor a close price, `market_data` is the
"No market data received for `<symbol>`" string and `account_summary` holds
the same value it had before the market-data step; `connection_status`
remains true provided the market-data cancellation does not raise a
`ConnectionError` (in that one case the outer handler forces it to false). -/
theorem stage_one_no_data_string (b : ClientBehavior) (host : String)
    (port client_id : Int) (account_code symbol exchange currency : String) (t : Ticker)
    (hcon : b.connectOutcome = .success)
    (hreq : b.reqMktDataOutcome = none)
    (hslp : b.sleepOutcome = none)
    (htk : b.tickerOutcome = .ok (some t))
    (hlast : t.last.truthy = false)
    (hclose : t.close.truthy = false) :
    ∃ r evs, initialize_stage_one b host port client_id account_code symbol exchange currency
        = .ok (r, evs)
      ∧ r.market_data = some (.errString
          ("No market data received for " ++ symbol ++ ". Ticker: " ++ tickerPyStr (some t)))
      ∧ r.account_summary = (ConnectionManager.get_account_summary b
          ((ConnectionManager.get_ib_instance b
              (ConnectionManager.new host port client_id)).2.is_connected).2
          account_code).1
      ∧ ((∀ m, b.cancelMktDataOutcome ≠ some (PyExn.connectionError m)) →
          r.connection_status = true) := by
  cases hcan : b.cancelMktDataOutcome with
  | none =>
    simp [initialize_stage_one, stageTryBody, ConnectionManager.get_ib_instance,
          ConnectionManager.new, IBConnector.new, ConnectionManager.postAcquire,
          IBConnector.connect, IBConnector.is_connected, ConnectionManager.is_connected,
          ConnectionManager.get_account_summary, marketDataStep, marketDataTry,
          stageFinally, stageExceptHandler, hcon, hreq, hslp, htk, hlast, hclose, hcan]
  | some e =>
    cases e with
    | connectionError m0 =>
      simp only [initialize_stage_one, stageTryBody, ConnectionManager.get_ib_instance,
          ConnectionManager.new, IBConnector.new, ConnectionManager.postAcquire,
          IBConnector.connect, IBConnector.is_connected, ConnectionManager.is_connected,
          ConnectionManager.get_account_summary, marketDataStep, marketDataTry,
          stageFinally, stageExceptHandler, hcon, hreq, hslp, htk, hlast, hclose, hcan]
      refine ⟨_, _, rfl, by simp, by simp, ?_⟩
      intro hno
      exact absurd rfl (hno m0)
    | otherError m0 =>
      simp [initialize_stage_one, stageTryBody, ConnectionManager.get_ib_instance,
          ConnectionManager.new, IBConnector.new, ConnectionManager.postAcquire,
          IBConnector.connect, IBConnector.is_connected, ConnectionManager.is_connected,
          ConnectionManager.get_account_summary, marketDataStep, marketDataTry,
          stageFinally, stageExceptHandler, hcon, hreq, hslp, htk, hlast, hclose, hcan]

/-- Witness for the amended C5 theorem at the zero-price ticker behaviour. -/
theorem stage_one_no_data_string_witness :
    ∃ r evs, initialize_stage_one cbZeroTicker "127.0.0.1" 7497 1 "DU1234567" "AAPL"
        "SMART" "USD" = .ok (r, evs)
      ∧ r.market_data = some (.errString
          ("No market data received for " ++ "AAPL" ++ ". Ticker: "
            ++ tickerPyStr (some zeroPriceTicker)))
      ∧ r.account_summary = (ConnectionManager.get_account_summary cbZeroTicker
          ((ConnectionManager.get_ib_instance cbZeroTicker
              (ConnectionManager.new "127.0.0.1" 7497 1)).2.is_connected).2 "DU1234567").1
      ∧ ((∀ m, cbZeroTicker.cancelMktDataOutcome ≠ some (PyExn.connectionError m)) →
          r.connection_status = true) :=
  stage_one_no_data_string cbZeroTicker "127.0.0.1" 7497 1 "DU1234567" "AAPL" "SMART" "USD"
    zeroPriceTicker rfl rfl rfl rfl rfl rfl

/-- C9: when the snapshot ticker is present but its `last` and `close`
prices are both exactly `0` (falsy in Python), `initialize_stage_one` sets
`market_data` to the "No market data received" string rather than a mapping,
although price fields are present: the availability check
`ticker.last or ticker.close` uses truthiness, not presence. -/
theorem stage_one_zero_prices_no_data (b : ClientBehavior) (host : String)
    (port client_id : Int) (account_code symbol exchange currency : String) (t : Ticker)
    (hcon : b.connectOutcome = .success)
    (hreq : b.reqMktDataOutcome = none)
    (hslp : b.sleepOutcome = none)
    (htk : b.tickerOutcome = .ok (some t))
    (hlast : t.last = PyFloat.val 0)
    (hclose : t.close = PyFloat.val 0) :
    ∃ r evs, initialize_stage_one b host port client_id account_code symbol exchange currency
        = .ok (r, evs)
      ∧ r.market_data = some (MarketData.errString
          ("No market data received for " ++ symbol ++ ". Ticker: " ++ tickerPyStr (some t))) := by
  cases hcan : b.cancelMktDataOutcome with
  | none =>
    simp [initialize_stage_one, stageTryBody, ConnectionManager.get_ib_instance,
          ConnectionManager.new, IBConnector.new, ConnectionManager.postAcquire,
          IBConnector.connect, IBConnector.is_connected, ConnectionManager.is_connected,
          ConnectionManager.get_account_summary, marketDataStep, marketDataTry, PyFloat.truthy,
          stageFinally, stageExceptHandler, hcon, hreq, hslp, htk, hlast, hclose, hcan]
  | some e =>
    cases e <;>
      simp [initialize_stage_one, stageTryBody, ConnectionManager.get_ib_instance,
            ConnectionManager.new, IBConnector.new, ConnectionManager.postAcquire,
            IBConnector.connect, IBConnector.is_connected, ConnectionManager.is_connected,
            ConnectionManager.get_account_summary, marketDataStep, marketDataTry, PyFloat.truthy,
            stageFinally, stageExceptHandler, hcon, hreq, hslp, htk, hlast, hclose, hcan]

/-- Witness for C9 at the zero-price ticker behaviour. -/
theorem stage_one_zero_prices_no_data_witness :
    ∃ r evs, initialize_stage_one cbZeroTicker "127.0.0.1" 7497 1 "DU1234567" "AAPL"
        "SMART" "USD" = .ok (r, evs)
      ∧ r.market_data = some (MarketData.errString
          ("No market data received for " ++ "AAPL" ++ ". Ticker: "
            ++ tickerPyStr (some zeroPriceTicker))) :=
  stage_one_zero_prices_no_data cbZeroTicker "127.0.0.1" 7497 1 "DU1234567" "AAPL" "SMART" "USD"
    zeroPriceTicker rfl rfl rfl rfl rfl rfl
